import Mathlib

/-!
Shallow embedding of the go-speed repository: the speedtest HTTP server
(src/main.go and the metrics-enabled variant embedded in src/cli/help.go)
and the bubbletea client driver (src/cli/main.go).

Conventions:
* Machine integers are modelled as Int (Go int is 64-bit; strconv.Atoi's
  range check is modelled explicitly in goAtoi).
* The download handler's write loop is modelled with explicit fuel:
  a result of none means the loop did not terminate within the given
  fuel (with a positive chunk size, fuel = totalSize always suffices;
  with chunk size 0 the loop never terminates for a positive size).
* Go float64 arithmetic on throughput is modelled over ℚ, with Option:
  none marks the result of a division whose divisor is 0 (a non-finite
  float in Go); some q is the exact rational value of the expression.
-/

namespace GoSpeed

/-- Decimal value of a digit run, as in Go strconv: none if the list is
empty or contains a non-digit character. -/
def digitsVal : List Char → Nat → Option Nat
  | [], acc => some acc
  | c :: cs, acc =>
    if c.isDigit then digitsVal cs (acc * 10 + (c.toNat - 48)) else none

/-- Model of Go strconv.Atoi (base-10 ParseInt into a 64-bit int):
optional single leading sign, then one or more digits; any other shape,
and any value outside the int64 range, yields an error (none). -/
def goAtoi (s : String) : Option Int :=
  match s.data with
  | [] => none
  | c :: rest =>
    let signDigits : Bool × List Char :=
      if c = '-' then (true, rest)
      else if c = '+' then (false, rest) else (false, c :: rest)
    match signDigits with
    | (neg, ds) =>
      match ds with
      | [] => none
      | _ :: _ =>
        match digitsVal ds 0 with
        | none => none
        | some n =>
          let v : Int := if neg then -(n : Int) else (n : Int)
          if v < -(2 ^ 63) ∨ (2 ^ 63 - 1 : Int) < v then none else some v

/-- The download handler's streaming loop (src/main.go lines 57-69):
starting from `remaining = totalSize - sent`, each iteration writes
n = min remaining chunkSize bytes of the payload buffer and decreases
remaining by n.  The returned list holds the sizes of the successive
writes.  Fuel bounds the number of iterations; none models a loop that
has not terminated within the fuel (it never terminates when
chunkSize = 0 and remaining > 0). -/
def writeChunks (chunkSize : Nat) : Nat → Nat → Option (List Nat)
  | _, 0 => some []
  | 0, _ + 1 => none
  | fuel + 1, r + 1 =>
    let n := min (r + 1) chunkSize
    (writeChunks chunkSize fuel (r + 1 - n)).map (fun ws => n :: ws)

/-- Response produced by the download handler: HTTP status, the
Content-Type and Content-Length headers when set, the sizes of the
successive payload writes, and the plain-text error body when
http.Error was called. -/
structure DlResp where
  status : Nat
  contentType : Option String
  contentLength : Option Int
  chunkWrites : List Nat
  errMsg : Option String
deriving DecidableEq

/-- The 400 response of the download handler's validation branch. -/
def dlBadRequest : DlResp :=
  { status := 400, contentType := none, contentLength := none,
    chunkWrites := [], errMsg := some "invalid size parameter" }

/-- Success path of the download handler: set headers up front, then
stream totalSize bytes in chunks of at most chunkSize. -/
def dlServe (chunkSize : Nat) (totalSize : Int) (fuel : Nat) : Option DlResp :=
  (writeChunks chunkSize fuel totalSize.toNat).map fun ws =>
    { status := 200, contentType := some "application/octet-stream",
      contentLength := some totalSize, chunkWrites := ws, errMsg := none }

/-- downloadHandler of src/main.go: with no size parameter the hardcoded
constant 40*1024*1024 is served (the -default-size flag is ignored by
this variant); otherwise the parameter must parse via Atoi to a value
> 0, else a 400 response with no payload bytes. -/
def downloadHandler (chunkSize : Nat) (sizeParam : Option String)
    (fuel : Nat) : Option DlResp :=
  match sizeParam with
  | none => dlServe chunkSize (40 * 1024 * 1024) fuel
  | some s =>
    match goAtoi s with
    | none => some dlBadRequest
    | some v => if v ≤ 0 then some dlBadRequest else dlServe chunkSize v fuel

/-- downloadHandler of the metrics-enabled server variant (embedded in
src/cli/help.go, lines 237-271): identical except that the
no-parameter path serves the configured defaultDownloadSize. -/
def downloadHandlerV2 (chunkSize : Nat) (defaultDownloadSize : Int)
    (sizeParam : Option String) (fuel : Nat) : Option DlResp :=
  match sizeParam with
  | none => dlServe chunkSize defaultDownloadSize fuel
  | some s =>
    match goAtoi s with
    | none => some dlBadRequest
    | some v => if v ≤ 0 then some dlBadRequest else dlServe chunkSize v fuel

/-- Response of the upload handler: status and text body. -/
structure UpResp where
  status : Nat
  body : String
deriving DecidableEq

/-- Model of io.Copy(io.Discard, r.Body): the body arrives as a sequence
of reads (chunks of bytes); the copy discards content and accumulates
the byte count. -/
def ioCopyCount (chunks : List (List Nat)) : Nat :=
  chunks.foldl (fun acc c => acc + c.length) 0

/-- uploadHandler (src/main.go lines 73-84): drain the body counting
bytes; on a read error respond 500 without reporting a partial count;
otherwise respond 200 with the exact count. -/
def uploadHandler (chunks : List (List Nat)) (readErr : Bool) : UpResp :=
  if readErr then { status := 500, body := "error reading body" }
  else
    { status := 200,
      body := "received " ++ toString (ioCopyCount chunks) ++ " bytes" }

/-- Outcome of server startup. -/
inductive StartupResult
  | panicked
  | started (chunkLen : Nat) (defaultSize : Int)
deriving DecidableEq

/-- Startup of the server (main of src/main.go / the help.go variant):
flags are parsed with no explicit validation; the only failure is the
runtime panic of make([]byte, chunkSize) on a negative chunk size.
Zero chunk size and arbitrary default size are accepted and reach the
handlers. -/
def serverStartup (chunkSize defaultSize : Int) : StartupResult :=
  if chunkSize < 0 then .panicked
  else .started chunkSize.toNat defaultSize

/-! ## Client driver (src/cli/main.go) -/

/-- serverBase-relative requests issued by the client. -/
inductive Request
  | ping
  | download (size : Nat)
  | upload (nbytes : Nat)
deriving DecidableEq

/-- The client's fixed configuration constants (src/cli/main.go 17-21). -/
def testSize : Nat := 100 * 1024 * 1024

/-- Number of concurrent upload streams (src/cli/main.go). -/
def streams : Nat := 4

/-- Messages delivered to model.Update.  Durations are in nanoseconds
(Go time.Duration). -/
inductive Msg
  | ping (durNs : Int)
  | download (nbytes : Int) (durNs : Int)
  | upload (nbytes : Int) (durNs : Int)
  | progress (phase : String) (done total : Int)
  | error
deriving DecidableEq

/-- Commands the driver can run.  quit is tea.Quit. -/
inductive Cmd
  | pingTest
  | downloadTest
  | uploadTest
  | quit
deriving DecidableEq

/-- The bubbletea model (src/cli/main.go 47-53).  Speeds are Option ℚ:
none marks the non-finite float produced by a division with zero
divisor, some q the exact value of the float expression. -/
structure Model where
  phase : String
  latencyNs : Int
  downloadSpeed : Option ℚ
  uploadSpeed : Option ℚ
  progressPercent : ℚ
  progressWidth : Nat
deriving DecidableEq

/-- initialModel (src/cli/main.go 55-61): phase ping, zero results,
progress widget at its default width. -/
def initialModel : Model :=
  { phase := "ping", latencyNs := 0, downloadSpeed := some 0,
    uploadSpeed := some 0, progressPercent := 0, progressWidth := 40 }

/-- The throughput expression float64(bytes) / dur.Seconds() / (1024*1024)
as written in model.Update: none when dur = 0 (the division by zero is
performed in Go, yielding a non-finite float). -/
def goSpeed (nbytes durNs : Int) : Option ℚ :=
  if durNs = 0 then none
  else some ((nbytes : ℚ) / ((durNs : ℚ) / 1000000000) / (1024 * 1024))

/-- model.Update (src/cli/main.go 68-100), one branch per message kind.
Returns the new model and the follow-up command (none = nil). -/
def Model.update (m : Model) : Msg → Model × Option Cmd
  | .ping d => ({ m with latencyNs := d, phase := "download" }, some .downloadTest)
  | .download b d =>
    ({ m with downloadSpeed := goSpeed b d, phase := "upload" }, some .uploadTest)
  | .upload b d =>
    ({ m with uploadSpeed := goSpeed b d, phase := "done" }, some .quit)
  | .progress _ dn tot =>
    if 0 < tot then ({ m with progressPercent := (dn : ℚ) / (tot : ℚ) }, none)
    else (m, none)
  | .error => ({ m with phase := "error", progressWidth := 0 }, some .quit)

/-- Outcome the environment gives a download request: transport error on
the GET, error from the body copy (the partial count is discarded by the
code), or success with an HTTP status and a body of n bytes. -/
inductive DlOut
  | transportErr
  | copyErr
  | ok (status : Nat) (nbytes : Int)

/-- Network environment of one client run: outcome and duration of the
ping and download requests (statuses are recorded because the code never
inspects them), and per-stream success of the upload POSTs. -/
structure Oracle where
  ping : Option Nat
  pingDurNs : Int
  dl : DlOut
  dlDurNs : Int
  upOk : Nat → Bool
  upDurNs : Int

/-- The upload fan-out loop (src/cli/main.go 175-192) with its shared
atomic counter: stream i posts totalSize / streamCount bytes and, only
if its request succeeded, adds exactly that segment size to the
counter; a failed stream adds nothing.  The result is the counter value
after the WaitGroup join. -/
def uploadFanOutBytes (streamCount totalSize : Nat) (ok : Nat → Bool) : Nat :=
  (List.range streamCount).foldl
    (fun acc i => if ok i then acc + totalSize / streamCount else acc) 0

/-- Execute a command against the environment, producing the message it
returns (none for tea.Quit, which produces no message).  pingTestCmd and
downloadTestCmd return errorMsg exactly on a transport or copy error —
the HTTP status is never examined; uploadTestCmd always returns an
uploadMsg whose byte count is the fan-out counter after the join. -/
def execCmd (o : Oracle) : Cmd → Option Msg
  | .pingTest =>
    some (match o.ping with
      | none => .error
      | some _ => .ping o.pingDurNs)
  | .downloadTest =>
    some (match o.dl with
      | .transportErr => .error
      | .copyErr => .error
      | .ok _ n => .download n o.dlDurNs)
  | .uploadTest =>
    some (.upload (uploadFanOutBytes streams testSize o.upOk) o.upDurNs)
  | .quit => none

/-- The HTTP requests a command issues when executed. -/
def requestsOf : Cmd → List Request
  | .pingTest => [.ping]
  | .downloadTest => [.download testSize]
  | .uploadTest => List.replicate streams (.upload (testSize / streams))
  | .quit => []

/-- The bubbletea event loop restricted to the commands this program
produces: run the current command, feed its message to Update, continue
with the returned command.  Also records every request issued.  Fuel
bounds the number of steps (4 suffice for this driver: ping, download,
upload, quit). -/
def run (o : Oracle) : Nat → Model → Cmd → Model × List Request
  | 0, m, _ => (m, [])
  | fuel + 1, m, c =>
    match execCmd o c with
    | none => (m, [])
    | some msg =>
      match m.update msg with
      | (m1, none) => (m1, requestsOf c)
      | (m1, some c1) =>
        match run o fuel m1 c1 with
        | (m2, rs) => (m2, requestsOf c ++ rs)

/-- One full client run: from initialModel, starting with Init's
pingTestCmd. -/
def runDriver (o : Oracle) : Model × List Request :=
  run o 8 initialModel .pingTest

/-! ## Helper lemmas -/

/-- With a positive chunk size, the download write loop terminates within
totalSize iterations, each write is between 1 and chunkSize bytes, and
the written byte counts sum to exactly the requested size. -/
theorem writeChunks_spec (c : Nat) (hc : 0 < c) :
    ∀ fuel r, r ≤ fuel →
      ∃ ws, writeChunks c fuel r = some ws ∧ ws.sum = r ∧
        ∀ w ∈ ws, 0 < w ∧ w ≤ c := by
  intro fuel
  induction fuel with
  | zero =>
    intro r hr
    have hr0 : r = 0 := Nat.le_zero.mp hr
    subst hr0
    exact ⟨[], rfl, rfl, by simp⟩
  | succ f ih =>
    intro r hr
    match r with
    | 0 => exact ⟨[], rfl, rfl, by simp⟩
    | r + 1 =>
      have hn1 : 1 ≤ min (r + 1) c := le_min (Nat.succ_le_succ (Nat.zero_le r)) hc
      have hrec : r + 1 - min (r + 1) c ≤ f := by omega
      obtain ⟨ws, hws, hsum, hbound⟩ := ih (r + 1 - min (r + 1) c) hrec
      refine ⟨min (r + 1) c :: ws, ?_, ?_, ?_⟩
      · simp [writeChunks, hws]
      · simp [List.sum_cons, hsum]
      · intro w hw
        rcases List.mem_cons.mp hw with h | h
        · subst h; exact ⟨hn1, min_le_right _ _⟩
        · exact hbound w h

/-- With chunk size 0 the write loop makes no progress: for any positive
remaining size it exhausts every fuel bound (the Go loop never
terminates). -/
theorem writeChunks_zero (fuel r : Nat) :
    writeChunks 0 fuel (r + 1) = none := by
  induction fuel with
  | zero => rfl
  | succ f ih => simp [writeChunks, ih]

/-- The fan-out fold counts one full segment per stream whose request
succeeded. -/
theorem fanOutFold (ok : Nat → Bool) (seg : Nat) :
    ∀ (l : List Nat) (acc : Nat),
      l.foldl (fun a i => if ok i then a + seg else a) acc
        = acc + l.countP ok * seg := by
  intro l
  induction l with
  | nil => intro acc; simp
  | cons x xs ih =>
    intro acc
    by_cases h : ok x
    case pos =>
      simp only [List.foldl, List.countP_cons, h, if_true, ih]
      ring
    case neg =>
      simp [List.foldl, List.countP_cons, h, ih]

/-- The aggregate byte counter after the join equals (number of
successful streams) * (segment size). -/
theorem uploadFanOutBytes_eq (streamCount totalSize : Nat) (ok : Nat → Bool) :
    uploadFanOutBytes streamCount totalSize ok
      = (List.range streamCount).countP ok * (totalSize / streamCount) := by
  have h := fanOutFold ok (totalSize / streamCount) (List.range streamCount) 0
  simpa [uploadFanOutBytes] using h

/-- Streamed reads sum to the exact body length. -/
theorem ioCopyCount_go :
    ∀ (l : List (List Nat)) (acc : Nat),
      l.foldl (fun a c => a + c.length) acc = acc + l.flatten.length := by
  intro l
  induction l with
  | nil => intro acc; simp
  | cons c cs ih =>
    intro acc
    simp [List.foldl, ih, List.flatten]
    ring

/-! ## Claims -/

/-- C1: for every size parameter that Atoi accepts with value v > 0 (and
a positive configured chunk size, with enough fuel for the loop, which
always terminates within v steps), both server variants respond 200,
set Content-Length to exactly v, and write chunk bodies summing to
exactly v bytes, the final chunk truncated. -/
theorem c1_download_valid_size (c : Nat) (hc : 0 < c) (s : String) (v : Int)
    (hparse : goAtoi s = some v) (hv : 0 < v)
    (fuel : Nat) (hfuel : v.toNat ≤ fuel) (d : Int) :
    ∃ ws,
      downloadHandler c (some s) fuel
        = some { status := 200, contentType := some "application/octet-stream",
                 contentLength := some v, chunkWrites := ws, errMsg := none }
      ∧ downloadHandlerV2 c d (some s) fuel
        = some { status := 200, contentType := some "application/octet-stream",
                 contentLength := some v, chunkWrites := ws, errMsg := none }
      ∧ ws.sum = v.toNat := by
  obtain ⟨ws, hws, hsum, _⟩ := writeChunks_spec c hc fuel v.toNat hfuel
  have hnle : ¬ v ≤ 0 := not_le.mpr hv
  refine ⟨ws, ?_, ?_, hsum⟩
  · simp [downloadHandler, hparse, hnle, dlServe, hws]
  · simp [downloadHandlerV2, hparse, hnle, dlServe, hws]

/-- C1 witness: size parameter "5" with chunk size 2 yields 200,
Content-Length 5, and writes summing to 5. -/
theorem c1_download_valid_size_witness :
    ∃ ws,
      downloadHandler 2 (some "5") 5
        = some { status := 200, contentType := some "application/octet-stream",
                 contentLength := some 5, chunkWrites := ws, errMsg := none }
      ∧ downloadHandlerV2 2 7 (some "5") 5
        = some { status := 200, contentType := some "application/octet-stream",
                 contentLength := some 5, chunkWrites := ws, errMsg := none }
      ∧ ws.sum = (5 : Int).toNat :=
  c1_download_valid_size 2 (by decide) "5" 5 (by decide) (by decide)
    5 (by decide) 7

/-- C9: a size parameter that is non-numeric, or parses to a value ≤ 0,
makes both server variants answer 400 with the error text and zero
payload writes. -/
theorem c9_download_invalid_size (c fuel : Nat) (d : Int) (s : String)
    (h : goAtoi s = none ∨ ∃ v, goAtoi s = some v ∧ v ≤ 0) :
    downloadHandler c (some s) fuel = some dlBadRequest
    ∧ downloadHandlerV2 c d (some s) fuel = some dlBadRequest
    ∧ dlBadRequest.status = 400
    ∧ dlBadRequest.chunkWrites = [] := by
  rcases h with h | ⟨v, hv, hle⟩
  · simp [downloadHandler, downloadHandlerV2, h, dlBadRequest]
  · simp [downloadHandler, downloadHandlerV2, hv, hle, dlBadRequest]

/-- C9 witness: the non-numeric parameter "abc" is rejected with 400 and
no payload bytes. -/
theorem c9_download_invalid_size_witness :
    downloadHandler 1024 (some "abc") 100 = some dlBadRequest
    ∧ downloadHandlerV2 1024 4096 (some "abc") 100 = some dlBadRequest
    ∧ dlBadRequest.status = 400
    ∧ dlBadRequest.chunkWrites = [] :=
  c9_download_invalid_size 1024 100 4096 "abc" (Or.inl (by decide))

/-- C3: for every request body (delivered as any sequence of reads,
including empty and single-byte bodies), the upload handler that drains
the body without a read error responds 200 and reports exactly the
body's length. -/
theorem c3_upload_reports_exact_count (chunks : List (List Nat)) :
    uploadHandler chunks false
      = { status := 200,
          body := "received " ++ toString chunks.flatten.length ++ " bytes" } := by
  simp [uploadHandler, ioCopyCount, ioCopyCount_go]

/-- C4: code bug in src/main.go — with chunk-size 1024 and default-size
4096, a request with no size parameter is served 40*1024*1024 bytes
(the hardcoded constant; the -default-size flag is ignored), not 4096;
the metrics-enabled variant honours the configured default, serving
exactly 4096 bytes in 4 chunk writes of 1024. -/
theorem c4_default_size_divergence :
    (∃ ws, downloadHandler 1024 none (40 * 1024 * 1024)
        = some { status := 200, contentType := some "application/octet-stream",
                 contentLength := some (40 * 1024 * 1024), chunkWrites := ws,
                 errMsg := none }
      ∧ ws.sum = 40 * 1024 * 1024 ∧ ws.sum ≠ 4096)
    ∧ downloadHandlerV2 1024 4096 none 4
        = some { status := 200, contentType := some "application/octet-stream",
                 contentLength := some 4096,
                 chunkWrites := [1024, 1024, 1024, 1024], errMsg := none } := by
  constructor
  · obtain ⟨ws, hws, hsum, _⟩ :=
      writeChunks_spec 1024 (by decide) (40 * 1024 * 1024) (40 * 1024 * 1024)
        le_rfl
    refine ⟨ws, ?_, ?_, ?_⟩
    · have ht : ((40 * 1024 * 1024 : Int)).toNat = 40 * 1024 * 1024 := rfl
      simp [downloadHandler, dlServe, ht, hws]
    · simpa using hsum
    · simp [hsum]
  · decide

/-- C2: for streamCount 1, 4 or 16 and a total size it divides evenly,
if every stream's request succeeds the aggregate confirmed-byte counter
after the join equals exactly totalSize. -/
theorem c2_fanout_all_success_total (sc ts : Nat) (ok : Nat → Bool)
    (_hsc : sc = 1 ∨ sc = 4 ∨ sc = 16) (hdvd : sc ∣ ts)
    (hok : ∀ i, i < sc → ok i = true) :
    uploadFanOutBytes sc ts ok = ts := by
  have hcount : (List.range sc).countP ok = sc := by
    have h := List.countP_eq_length (p := ok) (l := List.range sc)
    rw [List.length_range] at h
    exact h.mpr (fun a ha => hok a (List.mem_range.mp ha))
  rw [uploadFanOutBytes_eq, hcount]
  exact Nat.mul_div_cancel' hdvd

/-- C2 witness: 4 streams over 8 bytes, all succeeding, confirm 8. -/
theorem c2_fanout_all_success_total_witness :
    uploadFanOutBytes 4 8 (fun _ => true) = 8 :=
  c2_fanout_all_success_total 4 8 (fun _ => true) (Or.inr (Or.inl rfl))
    (by decide) (fun _ _ => rfl)

/-- C6: the shared counter is bumped by exactly one full segment per
successful stream and by nothing for a failed stream, so the joined
aggregate is always (successful streams) * (totalSize / streamCount);
in particular 3 of 4 streams of a 10 MiB upload confirm 7864320 bytes
(7.5 MiB), not 10 MiB. -/
theorem c6_confirmed_bytes_only :
    (∀ (sc ts : Nat) (ok : Nat → Bool),
      uploadFanOutBytes sc ts ok
        = (List.range sc).countP ok * (ts / sc))
    ∧ uploadFanOutBytes 4 (10 * 1024 * 1024) (fun i => decide (i < 3))
        = 7864320 := by
  exact ⟨uploadFanOutBytes_eq, by decide⟩

/-- Environment in which ping and download succeed but every upload
stream's connection is refused. -/
def oracleAllUpFail : Oracle :=
  { ping := some 200, pingDurNs := 1, dl := .ok 200 (testSize : Int),
    dlDurNs := 1, upOk := fun _ => false, upDurNs := 1 }

/-- C10: uploadTestCmd never produces an errorMsg — even when every
stream fails it returns an uploadMsg carrying the counter value 0, and
Update on that message moves the driver to the done phase (with
tea.Quit), never to the error phase. -/
theorem c10_upload_never_errors (o : Oracle) (m : Model)
    (hfail : ∀ i, o.upOk i = false) :
    execCmd o .uploadTest = some (.upload 0 o.upDurNs)
    ∧ (m.update (.upload 0 o.upDurNs)).1.phase = "done"
    ∧ (m.update (.upload 0 o.upDurNs)).1.uploadSpeed = goSpeed 0 o.upDurNs
    ∧ (m.update (.upload 0 o.upDurNs)).2 = some Cmd.quit
    ∧ (∀ o2 : Oracle, ∃ b : Int,
        execCmd o2 .uploadTest = some (.upload b o2.upDurNs)) := by
  have hzero : uploadFanOutBytes streams testSize o.upOk = 0 := by
    rw [uploadFanOutBytes_eq]
    have : (List.range streams).countP o.upOk = 0 :=
      List.countP_eq_zero.mpr (fun a _ => by simp [hfail a])
    simp [this]
  refine ⟨?_, ?_, ?_, ?_, fun o2 => ⟨_, rfl⟩⟩
  · simp [execCmd, hzero]
  · simp [Model.update]
  · simp [Model.update]
  · simp [Model.update]

/-- C10 witness: with every stream refused, the upload command yields
an uploadMsg of 0 bytes and the driver reaches done. -/
theorem c10_upload_never_errors_witness :
    execCmd oracleAllUpFail .uploadTest = some (.upload 0 1)
    ∧ (initialModel.update (.upload 0 1)).1.phase = "done"
    ∧ (initialModel.update (.upload 0 1)).1.uploadSpeed = goSpeed 0 1
    ∧ (initialModel.update (.upload 0 1)).2 = some Cmd.quit
    ∧ (∀ o2 : Oracle, ∃ b : Int,
        execCmd o2 .uploadTest = some (.upload b o2.upDurNs)) :=
  c10_upload_never_errors oracleAllUpFail initialModel (fun _ => rfl)

/-- C5 fails on the code: Update computes the throughput of a
downloadMsg with elapsed = 0 by performing the division with zero
divisor (downloadSpeed = none marks the non-finite float), and far from
treating it as an error it moves on to the upload phase. -/
theorem c5_unguarded_division_counterexample :
    (initialModel.update (.download 100 0)).1.downloadSpeed = none
    ∧ (initialModel.update (.download 100 0)).1.phase = "upload"
    ∧ (initialModel.update (.download 100 0)).2 = some Cmd.uploadTest := by
  decide

/-- C5 amended: throughput is computed solely by the expression
bytes / elapsed.Seconds() / (1024*1024), but elapsed = 0 is not guarded:
the division by zero is performed (non-finite result) and the phase
still advances normally. -/
theorem c5_throughput_formula (m : Model) (b d : Int) (hd : d ≠ 0) :
    (m.update (.download b d)).1.downloadSpeed
        = some ((b : ℚ) / ((d : ℚ) / 1000000000) / (1024 * 1024))
    ∧ (m.update (.upload b d)).1.uploadSpeed
        = some ((b : ℚ) / ((d : ℚ) / 1000000000) / (1024 * 1024))
    ∧ (m.update (.download b 0)).1.downloadSpeed = none
    ∧ (m.update (.upload b 0)).1.uploadSpeed = none
    ∧ (m.update (.download b 0)).1.phase = "upload"
    ∧ (m.update (.upload b 0)).1.phase = "done" := by
  refine ⟨?_, ?_, ?_, ?_, ?_, ?_⟩ <;> simp [Model.update, goSpeed, hd]

/-- C5 amended witness: with elapsed 2ns and 100 bytes the formula value
is produced, and with elapsed 0 the unguarded division yields the
non-finite marker while the phase advances. -/
theorem c5_throughput_formula_witness :
    (initialModel.update (.download 100 2)).1.downloadSpeed
        = some ((100 : ℚ) / ((2 : ℚ) / 1000000000) / (1024 * 1024))
    ∧ (initialModel.update (.upload 100 2)).1.uploadSpeed
        = some ((100 : ℚ) / ((2 : ℚ) / 1000000000) / (1024 * 1024))
    ∧ (initialModel.update (.download 100 0)).1.downloadSpeed = none
    ∧ (initialModel.update (.upload 100 0)).1.uploadSpeed = none
    ∧ (initialModel.update (.download 100 0)).1.phase = "upload"
    ∧ (initialModel.update (.upload 100 0)).1.phase = "done" :=
  c5_throughput_formula initialModel 100 2 (by decide)

/-- C7 fails on the code: in the environment where ping and download
succeed but every upload stream's connection is refused, network errors
occur during the upload phase and yet the run terminates in the done
phase, not the Error phase. -/
theorem c7_upload_error_not_terminal_counterexample :
    (runDriver oracleAllUpFail).1.phase = "done"
    ∧ ¬ (runDriver oracleAllUpFail).1.phase = "error" := by
  decide

/-- C7 amended: a transport error on the ping GET or a transport or
body-read error on the download GET transitions the driver immediately
to the error phase and no later-phase request is issued (a failed ping
issues only the ping request); but HTTP statuses are never inspected,
and upload-phase stream failures never transition to the error phase —
whenever ping and download complete at the transport level the run ends
in the done phase, issuing its upload requests regardless of stream
failures. -/
theorem c7_error_transitions (o : Oracle) :
    (o.ping = none →
      runDriver o
        = ({ initialModel with phase := "error", progressWidth := 0 },
           [Request.ping]))
    ∧ (∀ st, o.ping = some st → o.dl = .transportErr →
      (runDriver o).1.phase = "error"
      ∧ (runDriver o).2 = [Request.ping, Request.download testSize])
    ∧ (∀ st, o.ping = some st → o.dl = .copyErr →
      (runDriver o).1.phase = "error"
      ∧ (runDriver o).2 = [Request.ping, Request.download testSize])
    ∧ (∀ st n, o.ping = some st → o.dl = .ok st n →
      (runDriver o).1.phase = "done"
      ∧ (runDriver o).2
          = [Request.ping, Request.download testSize]
            ++ List.replicate streams (Request.upload (testSize / streams))) := by
  refine ⟨fun hp => ?_, fun st hp hdl => ?_, fun st hp hdl => ?_,
    fun st n hp hdl => ?_⟩
  · simp [runDriver, run, execCmd, Model.update, requestsOf, hp]
  · simp [runDriver, run, execCmd, Model.update, requestsOf, hp, hdl]
  · simp [runDriver, run, execCmd, Model.update, requestsOf, hp, hdl]
  · simp [runDriver, run, execCmd, Model.update, requestsOf, hp, hdl]

/-- Environment in which the ping GET itself fails at the transport
level. -/
def oraclePingRefused : Oracle :=
  { ping := none, pingDurNs := 0, dl := .transportErr, dlDurNs := 0,
    upOk := fun _ => true, upDurNs := 1 }

/-- Environment in which ping succeeds and the download GET fails at
the transport level. -/
def oracleDlRefused : Oracle :=
  { ping := some 200, pingDurNs := 1, dl := .transportErr, dlDurNs := 0,
    upOk := fun _ => true, upDurNs := 1 }

/-- C7 amended witness: a refused ping ends the run in the error phase
having issued only the ping request; a refused download ends it in the
error phase having issued only ping and download requests. -/
theorem c7_error_transitions_witness :
    runDriver oraclePingRefused
      = ({ initialModel with phase := "error", progressWidth := 0 },
         [Request.ping])
    ∧ (runDriver oracleDlRefused).1.phase = "error"
    ∧ (runDriver oracleDlRefused).2
        = [Request.ping, Request.download testSize] :=
  ⟨(c7_error_transitions oraclePingRefused).1 rfl,
   (c7_error_transitions oracleDlRefused).2.1 200 rfl rfl⟩

/-- C8 fails on the code: chunk size 0 violates the configuration
contract (chunkSize > 0) yet startup succeeds without any validation,
and the download handler is then reachable with the zero-length payload
buffer, where a perfectly valid request for 1 byte never completes (the
write loop makes no progress for any fuel bound). -/
theorem c8_no_startup_validation_counterexample :
    serverStartup 0 10485760 = .started 0 10485760
    ∧ downloadHandlerV2 0 10485760 (some "1") 1000000 = none := by
  constructor
  · decide
  · have h1 : goAtoi "1" = some 1 := by decide
    have hz := writeChunks_zero 1000000 0
    simp [downloadHandlerV2, dlServe, h1, hz]

/-- C8 amended: startup performs no explicit validation of the
configuration: the only fail-fast behaviour is the runtime panic of
make on a negative chunk size; chunk size 0 (and any default size) is
accepted, reaches the handlers unvalidated, and makes the download
write loop non-terminating for every positive requested size. -/
theorem c8_startup_no_validation (c d : Int) :
    (c < 0 → serverStartup c d = .panicked)
    ∧ (0 ≤ c → serverStartup c d = .started c.toNat d)
    ∧ (∀ fuel r : Nat, writeChunks 0 fuel (r + 1) = none) := by
  refine ⟨fun h => ?_, fun h => ?_, writeChunks_zero⟩
  · simp [serverStartup, h]
  · simp [serverStartup, not_lt.mpr h]

/-- C8 amended witness: a negative chunk size panics at startup, chunk
size 0 with default 4096 starts successfully, and the zero-chunk write
loop never finishes one remaining byte within fuel 5. -/
theorem c8_startup_no_validation_witness :
    serverStartup (-1) 4096 = .panicked
    ∧ serverStartup 0 4096 = .started 0 4096
    ∧ writeChunks 0 5 1 = none :=
  ⟨(c8_startup_no_validation (-1) 4096).1 (by decide),
   (c8_startup_no_validation 0 4096).2.1 (by decide),
   (c8_startup_no_validation 0 0).2.2 5 0⟩

end GoSpeed
